import Mathlib

/-!
Shallow embedding of the emotion-to-pattern resolution core of `src/app.py`.

Python reals are modelled as `ℚ` (the program only manipulates decimal
literals and values parsed from JSON; IEEE-754 rounding, `inf` and `nan`
are outside the model).  JSON values produced by the Python `json.loads`
are modelled by the inductive `JVal`; the parser below is an executable
model of `json.loads` on the fragment the program can receive (it omits
the `NaN`/`Infinity` extensions and numeric underscores, which no claim
depends on).  Fallible Python code is modelled with `Option`/`Except`.
-/

namespace EmotionApp

/-- JSON values, the result of Python `json.loads`.  Objects keep the
textual field order; `dictGet` below reproduces Python dict semantics
(last duplicate key wins). -/
inductive JVal where
  | null
  | bool (b : Bool)
  | num (q : ℚ)
  | str (s : String)
  | arr (elems : List JVal)
  | obj (fields : List (String × JVal))
deriving Repr

/-- Python `dict.get` on a dict built from JSON object fields: Python keeps
the last occurrence of a duplicated key. -/
def dictGet (fields : List (String × JVal)) (key : String) : Option JVal :=
  (fields.reverse.find? (fun p => p.1 == key)).map (fun p => p.2)

/-! ### Python string primitives used by `app.py` -/

/-- Python whitespace characters stripped by `str.strip()` (ASCII part). -/
def pyWs (c : Char) : Bool :=
  c == ' ' || c == '\t' || c == '\n' || c == '\r' || c == Char.ofNat 11 || c == Char.ofNat 12

/-- Python `str.strip()`. -/
def pyStrip (s : String) : String :=
  String.mk (((s.data.dropWhile pyWs).reverse.dropWhile pyWs).reverse)

/-- Python `str.lower()` on the ASCII range (the keyword tables are ASCII). -/
def lowerChar (c : Char) : Char :=
  if 'A' ≤ c ∧ c ≤ 'Z' then Char.ofNat (c.toNat + 32) else c

/-- Python `str.lower()`. -/
def lowerStr (s : String) : String :=
  String.mk (s.data.map lowerChar)

/-- Does `hay` start with `needle`? -/
def startsWithChars : List Char → List Char → Bool
  | [], _ => true
  | _ :: _, [] => false
  | a :: as, b :: bs => a == b && startsWithChars as bs

/-- Is `needle` a contiguous substring of `hay`? -/
def substrIn (needle : List Char) : List Char → Bool
  | [] => startsWithChars needle []
  | c :: rest => startsWithChars needle (c :: rest) || substrIn needle rest

/-- Python substring test `word in text`. -/
def strContains (text word : String) : Bool :=
  substrIn word.data text.data

/-- Python test `any(word in text for word in words)`. -/
def containsAny (text : String) (words : List String) : Bool :=
  words.any (fun w => strContains text w)

/-! ### Python `float(x)` conversion -/

/-- Value of a digit string, most significant first. -/
def digitsToNat (ds : List Char) : Nat :=
  ds.foldl (fun n c => 10 * n + (c.toNat - '0'.toNat)) 0

/-- Consume an optional sign; `true` means negative. -/
def parseSign : List Char → Bool × List Char
  | '-' :: cs => (true, cs)
  | '+' :: cs => (false, cs)
  | cs => (false, cs)

/-- Exponent tail of a float literal: optional sign then at least one digit. -/
def parseExpTail (cs : List Char) : Option (Int × List Char) :=
  let p := parseSign cs
  let d := p.2.span Char.isDigit
  if d.1.isEmpty then none
  else some ((if p.1 then -(digitsToNat d.1 : Int) else (digitsToNat d.1 : Int)), d.2)

/-- Assemble `±ints.fracs × 10^e` as a rational. -/
def mkNum (neg : Bool) (ints fracs : List Char) (e : Int) : ℚ :=
  let m : ℚ := (digitsToNat ints : ℚ) + (digitsToNat fracs : ℚ) / (10 : ℚ) ^ fracs.length
  let v := m * (10 : ℚ) ^ e
  if neg then -v else v

/-- Python `float(s)` on a string: strip, optional sign, digits with an
optional decimal point (at least one digit overall), optional exponent.
`none` models `ValueError`.  (`inf`/`nan` and digit underscores are not
modelled; no claim depends on them.) -/
def parsePyFloat (s : String) : Option ℚ :=
  let cs := (pyStrip s).data
  let sg := parseSign cs
  let ip := sg.2.span Char.isDigit
  let fp : List Char × List Char :=
    match ip.2 with
    | '.' :: rest => rest.span Char.isDigit
    | _ => ([], ip.2)
  let consumedDot : Bool := match ip.2 with | '.' :: _ => true | _ => false
  if ip.1.isEmpty && fp.1.isEmpty then none
  else
    let rest := if consumedDot then fp.2 else ip.2
    match rest with
    | [] => some (mkNum sg.1 ip.1 fp.1 0)
    | 'e' :: r =>
      match parseExpTail r with
      | some (e, []) => some (mkNum sg.1 ip.1 fp.1 e)
      | _ => none
    | 'E' :: r =>
      match parseExpTail r with
      | some (e, []) => some (mkNum sg.1 ip.1 fp.1 e)
      | _ => none
    | _ => none

/-- Python `float(value)` on the values safe_float can receive: numbers
convert to themselves, booleans to 0/1, strings through `parsePyFloat`;
`None`, lists and dicts raise `TypeError` (`none`). -/
def pyFloat : JVal → Option ℚ
  | .num q => some q
  | .bool b => some (if b then 1 else 0)
  | .str s => parsePyFloat s
  | _ => none

/-! ### `safe_float` (app.py lines 37-43) -/

/-- Validator `safe_float(value, default, min_val, max_val)`: try `float(value)`;
on success clamp via `max(min_val, min(max_val, result))`; on
`ValueError`/`TypeError` return `default`.  Total, like the source
(it never raises). -/
def safe_float (value : JVal) (default min_val max_val : ℚ) : ℚ :=
  match pyFloat value with
  | some result => max min_val (min max_val result)
  | none => default

/-! ### Movement patterns and the rule-based classifier (app.py 173-254) -/

structure Pattern where
  speed : ℚ
  cohesion : ℚ
  separation : ℚ
  curve : ℚ
  behavior : String
deriving Repr, DecidableEq

/-- A pattern together with its interpretation.  The interpretation is a
`JVal` because the AI path passes through whatever JSON value the model
supplied; the rule-based path always produces `.str`. -/
structure Analysis where
  pattern : Pattern
  interpretation : JVal
deriving Repr

def highEnergyWords : List String := ["excited", "energetic", "manic", "hyper", "frantic", "wild"]
def angerWords : List String := ["angry", "rage", "furious", "aggressive", "violent"]
def sadnessWords : List String := ["sad", "depressed", "melancholy", "sorrow", "grief"]
def anxietyWords : List String := ["anxious", "nervous", "scared", "fear", "panic"]
def loveWords : List String := ["love", "affection", "romance", "tender", "caring"]
def joyWords : List String := ["happy", "joy", "cheerful", "bliss", "elated"]
def calmWords : List String := ["calm", "peaceful", "serene", "tranquil", "zen"]
def confusionWords : List String := ["confused", "chaos", "disorder", "random", "lost"]

/-- The default pattern set up before the keyword checks (app.py 179-185). -/
def defaultPattern : Pattern :=
  { speed := 0.8, cohesion := 0.12, separation := 25, curve := 0.3, behavior := "standard" }

/-- Fallback `analyze_emotion_simple` (app.py 173-254): lowercase the text, then an
if/elif chain over the keyword categories in source order; each branch
overrides only the fields it assigns, starting from `defaultPattern`. -/
def analyze_emotion_simple (emotion_text : String) : Analysis :=
  let text_lower := lowerStr emotion_text
  if containsAny text_lower highEnergyWords then
    { pattern := { defaultPattern with speed := 1.8, curve := 0.8, behavior := "swarm" },
      interpretation := .str "High energy, chaotic movement" }
  else if containsAny text_lower angerWords then
    { pattern := { defaultPattern with speed := 1.5, separation := 45, behavior := "predator" },
      interpretation := .str "Aggressive, confrontational movement" }
  else if containsAny text_lower sadnessWords then
    { pattern := { defaultPattern with speed := 0.4, curve := 0.1, cohesion := 0.05 },
      interpretation := .str "Slow, isolated, downward movement" }
  else if containsAny text_lower anxietyWords then
    { pattern := { defaultPattern with speed := 1.2, separation := 35, curve := 0.6, behavior := "predator" },
      interpretation := .str "Nervous, erratic, avoidant movement" }
  else if containsAny text_lower loveWords then
    { pattern := { defaultPattern with speed := 0.9, cohesion := 0.25, separation := 15, behavior := "standard" },
      interpretation := .str "Gentle, clustering, harmonious movement" }
  else if containsAny text_lower joyWords then
    { pattern := { defaultPattern with speed := 1.3, cohesion := 0.18, curve := 0.5, behavior := "swarm" },
      interpretation := .str "Joyful, bouncy, grouped movement" }
  else if containsAny text_lower calmWords then
    { pattern := { defaultPattern with speed := 0.6, curve := 0.2, cohesion := 0.08 },
      interpretation := .str "Slow, peaceful, flowing movement" }
  else if containsAny text_lower confusionWords then
    { pattern := { defaultPattern with speed := 1.0, curve := 0.9, separation := 20, behavior := "spiral" },
      interpretation := .str "Chaotic, unpredictable movement" }
  else
    { pattern := defaultPattern,
      interpretation := .str ("Simple pattern for '" ++ emotion_text ++ "'") }

/-! ### Model of Python `json.loads` -/

/-- JSON whitespace. -/
def jsonWs (c : Char) : Bool :=
  c == ' ' || c == '\t' || c == '\n' || c == '\r'

def skipJsonWs (cs : List Char) : List Char :=
  cs.dropWhile jsonWs

/-- Value of a hex digit. -/
def hexVal (c : Char) : Option Nat :=
  if '0' ≤ c ∧ c ≤ '9' then some (c.toNat - '0'.toNat)
  else if 'a' ≤ c ∧ c ≤ 'f' then some (c.toNat - 'a'.toNat + 10)
  else if 'A' ≤ c ∧ c ≤ 'F' then some (c.toNat - 'A'.toNat + 10)
  else none

/-- Single-character JSON escapes. -/
def escChar : Char → Option Char
  | '"' => some '"'
  | '\\' => some '\\'
  | '/' => some '/'
  | 'b' => some (Char.ofNat 8)
  | 'f' => some (Char.ofNat 12)
  | 'n' => some '\n'
  | 'r' => some '\r'
  | 't' => some '\t'
  | _ => none

/-- Body of a JSON string after the opening quote: characters up to the
closing quote, with escapes; control characters are rejected.
(Surrogate pairs are folded char-by-char, a harmless simplification.) -/
def parseJsonStrChars : List Char → Option (List Char × List Char)
  | [] => none
  | '"' :: rest => some ([], rest)
  | '\\' :: 'u' :: a :: b :: c :: d :: rest =>
    (match hexVal a, hexVal b, hexVal c, hexVal d with
     | some ha, some hb, some hc, some hd =>
       (parseJsonStrChars rest).map
         (fun p => (Char.ofNat (((ha * 16 + hb) * 16 + hc) * 16 + hd) :: p.1, p.2))
     | _, _, _, _ => none)
  | '\\' :: e :: rest =>
    (match escChar e with
     | some ch => (parseJsonStrChars rest).map (fun p => (ch :: p.1, p.2))
     | none => none)
  | c :: rest =>
    if c.toNat < 32 then none
    else (parseJsonStrChars rest).map (fun p => (c :: p.1, p.2))

/-- Exponent part of a JSON number, building the final rational. -/
def parseJsonExpTail (neg : Bool) (ints fracs : List Char) (cs : List Char) :
    Option (ℚ × List Char) :=
  let sg := parseSign cs
  let d := sg.2.span Char.isDigit
  if d.1.isEmpty then none
  else some (mkNum neg ints fracs (if sg.1 then -(digitsToNat d.1 : Int) else (digitsToNat d.1 : Int)), d.2)

/-- JSON number grammar: `-? int frac? exp?`, leading zeros rejected. -/
def parseJsonNum (cs : List Char) : Option (ℚ × List Char) :=
  let p := match cs with | '-' :: r => (true, r) | _ => (false, cs)
  let ip := p.2.span Char.isDigit
  if ip.1.isEmpty then none
  else if decide (2 ≤ ip.1.length) && ip.1.headD '1' == '0' then none
  else
    match ip.2 with
    | '.' :: r =>
      let fp := r.span Char.isDigit
      if fp.1.isEmpty then none
      else
        match fp.2 with
        | 'e' :: r2 => parseJsonExpTail p.1 ip.1 fp.1 r2
        | 'E' :: r2 => parseJsonExpTail p.1 ip.1 fp.1 r2
        | r2 => some (mkNum p.1 ip.1 fp.1 0, r2)
    | 'e' :: r2 => parseJsonExpTail p.1 ip.1 [] r2
    | 'E' :: r2 => parseJsonExpTail p.1 ip.1 [] r2
    | r2 => some (mkNum p.1 ip.1 [] 0, r2)

mutual

/-- Parse one JSON value (leading whitespace allowed), fuel-bounded. -/
def parseVal : Nat → List Char → Option (JVal × List Char)
  | 0, _ => none
  | fuel + 1, cs0 =>
    match skipJsonWs cs0 with
    | '{' :: rest =>
      (match skipJsonWs rest with
       | '}' :: r2 => some (.obj [], r2)
       | r1 => parseMembers fuel r1 [])
    | '[' :: rest =>
      (match skipJsonWs rest with
       | ']' :: r2 => some (.arr [], r2)
       | r1 => parseElems fuel r1 [])
    | '"' :: rest => (parseJsonStrChars rest).map (fun p => (.str (String.mk p.1), p.2))
    | 't' :: 'r' :: 'u' :: 'e' :: rest => some (.bool true, rest)
    | 'f' :: 'a' :: 'l' :: 's' :: 'e' :: rest => some (.bool false, rest)
    | 'n' :: 'u' :: 'l' :: 'l' :: rest => some (.null, rest)
    | cs => (parseJsonNum cs).map (fun p => (.num p.1, p.2))

/-- Members of a JSON object after `{` (first member onward). -/
def parseMembers : Nat → List Char → List (String × JVal) → Option (JVal × List Char)
  | 0, _, _ => none
  | fuel + 1, cs, acc =>
    match skipJsonWs cs with
    | '"' :: rest =>
      (match parseJsonStrChars rest with
       | none => none
       | some (key, r1) =>
         match skipJsonWs r1 with
         | ':' :: r2 =>
           (match parseVal fuel r2 with
            | none => none
            | some (v, r3) =>
              match skipJsonWs r3 with
              | ',' :: r4 => parseMembers fuel r4 (acc ++ [(String.mk key, v)])
              | '}' :: r4 => some (.obj (acc ++ [(String.mk key, v)]), r4)
              | _ => none)
         | _ => none)
    | _ => none

/-- Elements of a JSON array after `[` (first element onward). -/
def parseElems : Nat → List Char → List JVal → Option (JVal × List Char)
  | 0, _, _ => none
  | fuel + 1, cs, acc =>
    match parseVal fuel cs with
    | none => none
    | some (v, r1) =>
      match skipJsonWs r1 with
      | ',' :: r2 => parseElems fuel r2 (acc ++ [v])
      | ']' :: r2 => some (.arr (acc ++ [v]), r2)
      | _ => none

end

/-- Python `json.loads` on a character list: parse one value, allow only
trailing whitespace.  `none` models a raised `JSONDecodeError`. -/
def json_loads (cs : List Char) : Option JVal :=
  match parseVal (cs.length + 1) cs with
  | some (v, rest) => if (skipJsonWs rest).isEmpty then some v else none
  | none => none

/-! ### AI response processing (app.py 96-171) -/

/-- Lines 137-141: `start = text.find('{')`, `end = text.rfind('}') + 1`;
succeed with the slice `text[start:end]` when `start >= 0 and end > start`,
else the code raises `ValueError` (modelled `none`). -/
def extractJsonSlice (response_text : String) : Option (List Char) :=
  let cs := response_text.data
  match cs.findIdx? (fun c => c == '{') with
  | none => none
  | some start =>
    match cs.reverse.findIdx? (fun c => c == '}') with
    | none => none
    | some rk =>
      let stop := cs.length - rk
      if start < stop then some ((cs.drop start).take (stop - start)) else none

/-- The composed "reduce the model output text to a parsed JSON value" step:
`response.text.strip()`, brace-slice extraction, `json.loads`. -/
def aiParsed (response_raw : String) : Option JVal :=
  (extractJsonSlice (pyStrip response_raw)).bind json_loads

def valid_behaviors : List String := ["standard", "predator", "swarm", "spiral"]

/-- Lines 153-156: `if pattern['behavior'] not in valid_behaviors:
pattern['behavior'] = 'standard'`.  A non-string JSON value is never a
member of the list, so it is replaced as well. -/
def validate_behavior (v : JVal) : String :=
  match v with
  | .str s => if valid_behaviors.contains s then s else "standard"
  | _ => "standard"

/-- Lines 144-163: validate and clean the parsed AI object. -/
def ai_validate (emotion_text : String) (ai_data : List (String × JVal)) : Analysis :=
  { pattern :=
      { speed := safe_float ((dictGet ai_data "speed").getD (.num 1.0)) 1.0 0.2 2.0
        cohesion := safe_float ((dictGet ai_data "cohesion").getD (.num 0.12)) 0.12 0.0 0.3
        separation := safe_float ((dictGet ai_data "separation").getD (.num 25)) 25 10 60
        curve := safe_float ((dictGet ai_data "curve").getD (.num 0.3)) 0.3 0.0 1.0
        behavior := validate_behavior ((dictGet ai_data "behavior").getD (.str "standard")) }
    interpretation :=
      (dictGet ai_data "interpretation").getD
        (.str ("AI interpretation of \"" ++ emotion_text ++ "\"")) }

/-- Lines 130-171 of `analyze_emotion_with_ai`, after `generate_content`
returned `response_raw`: on a parsed object, validate it; on any failure
(no brace slice, unparseable JSON) the `except` at line 168 recovers by
calling `analyze_emotion_simple` internally. -/
def processAIResponse (emotion_text response_raw : String) : Analysis :=
  match aiParsed response_raw with
  | some (.obj ai_data) => ai_validate emotion_text ai_data
  | _ => analyze_emotion_simple emotion_text

/-- Outcome of the external `model.generate_content` call. -/
inductive AIOutcome where
  | failure
  | reply (text : String)
deriving Repr, DecidableEq

/-- Generator `analyze_emotion_with_ai` (app.py 96-171) as its own operation: the
service call may raise (propagated to the caller as `.error`, the
spec name `ExternalServiceError`); everything after it is total. -/
def analyze_emotion_with_ai (emotion_text : String) : AIOutcome → Except Unit Analysis
  | .failure => .error ()
  | .reply t => .ok (processAIResponse emotion_text t)

/-! ### Resolution entry point (app.py 55-94) -/

/-- The global `model` handle: `None`, or configured together with the
outcome its `generate_content` call would have on this request. -/
inductive AIService where
  | noModel
  | withModel (outcome : AIOutcome)
deriving Repr, DecidableEq

inductive ApiResponse where
  | badRequest (message : String)
  | ok (emotion : String) (pattern : Pattern) (interpretation : JVal) (ai_used : Bool)
deriving Repr

/-- Lines 71-80: try the AI path when the model is configured; any raised
error falls back to `analyze_emotion_simple`. -/
def resolve_pattern_data (svc : AIService) (emotion_text : String) : Analysis :=
  match svc with
  | .noModel => analyze_emotion_simple emotion_text
  | .withModel outcome =>
    match analyze_emotion_with_ai emotion_text outcome with
    | .ok a => a
    | .error _ => analyze_emotion_simple emotion_text

/-- Entry point `generate_emotion_pattern` (app.py 55-94).  `emotionField` is the
request body `emotion` field (`data.get('emotion', '')`); the response
carries `'ai_used': model is not None` (line 89). -/
def generate_emotion_pattern (svc : AIService) (emotionField : Option String) : ApiResponse :=
  let emotion_text := pyStrip (emotionField.getD "")
  if emotion_text = "" then .badRequest "Please provide emotion text"
  else
    .ok emotion_text (resolve_pattern_data svc emotion_text).pattern
      (resolve_pattern_data svc emotion_text).interpretation
      (match svc with | .noModel => false | .withModel _ => true)

/-! ### Range and validity predicates (spec section 3) -/

/-- The declared field ranges of a `MovementPattern` plus the behavior
enumeration. -/
abbrev PatternOK (p : Pattern) : Prop :=
  0.2 ≤ p.speed ∧ p.speed ≤ 2.0 ∧
  0.0 ≤ p.cohesion ∧ p.cohesion ≤ 0.3 ∧
  10 ≤ p.separation ∧ p.separation ≤ 60 ∧
  0.0 ≤ p.curve ∧ p.curve ≤ 1.0 ∧
  p.behavior ∈ valid_behaviors

/-- A response that returned a pattern, and that pattern is in range. -/
abbrev ResponseOK : ApiResponse → Prop
  | .badRequest _ => False
  | .ok _ p _ _ => PatternOK p

/-- The interpretation value is a non-empty string. -/
abbrev InterpStrNE : JVal → Prop
  | .str s => s ≠ ""
  | _ => False

/-- A response that returned a result whose interpretation is a non-empty
string. -/
abbrev InterpOK : ApiResponse → Prop
  | .ok _ _ i _ => InterpStrNE i
  | .badRequest _ => False

/-- The pattern carried by a response, when one was returned. -/
def responsePattern : ApiResponse → Option Pattern
  | .badRequest _ => none
  | .ok _ p _ _ => some p

/-- The interpretation carried by a response, when one was returned. -/
def responseInterp : ApiResponse → Option JVal
  | .badRequest _ => none
  | .ok _ _ i _ => some i

/-! ### Helper lemmas -/

theorem safe_float_bounds (v : JVal) (d mn mx : ℚ) (h1 : mn ≤ mx) (h2 : mn ≤ d)
    (h3 : d ≤ mx) : mn ≤ safe_float v d mn mx ∧ safe_float v d mn mx ≤ mx := by
  unfold safe_float
  cases pyFloat v with
  | none => exact ⟨h2, h3⟩
  | some q => exact ⟨le_max_left _ _, max_le h1 (min_le_left _ _)⟩

theorem simple_pattern_ok (s : String) : PatternOK (analyze_emotion_simple s).pattern := by
  simp only [analyze_emotion_simple]
  repeat' split
  all_goals refine ⟨?_, ?_, ?_, ?_, ?_, ?_, ?_, ?_, ?_⟩
  all_goals first
    | decide
    | norm_num [defaultPattern]
  all_goals decide

theorem validate_behavior_mem (v : JVal) : validate_behavior v ∈ valid_behaviors := by
  cases v with
  | str b =>
    simp only [validate_behavior]
    split
    · exact List.mem_of_elem_eq_true (by assumption)
    · decide
  | null => decide
  | bool b =>
    show "standard" ∈ valid_behaviors
    decide
  | num q =>
    show "standard" ∈ valid_behaviors
    decide
  | arr xs =>
    show "standard" ∈ valid_behaviors
    decide
  | obj gs =>
    show "standard" ∈ valid_behaviors
    decide

theorem ai_validate_pattern_ok (e : String) (fs : List (String × JVal)) :
    PatternOK (ai_validate e fs).pattern := by
  unfold ai_validate
  dsimp only
  refine ⟨?_, ?_, ?_, ?_, ?_, ?_, ?_, ?_, ?_⟩
  · exact (safe_float_bounds _ 1.0 0.2 2.0 (by norm_num) (by norm_num) (by norm_num)).1
  · exact (safe_float_bounds _ 1.0 0.2 2.0 (by norm_num) (by norm_num) (by norm_num)).2
  · exact (safe_float_bounds _ 0.12 0.0 0.3 (by norm_num) (by norm_num) (by norm_num)).1
  · exact (safe_float_bounds _ 0.12 0.0 0.3 (by norm_num) (by norm_num) (by norm_num)).2
  · exact (safe_float_bounds _ 25 10 60 (by norm_num) (by norm_num) (by norm_num)).1
  · exact (safe_float_bounds _ 25 10 60 (by norm_num) (by norm_num) (by norm_num)).2
  · exact (safe_float_bounds _ 0.3 0.0 1.0 (by norm_num) (by norm_num) (by norm_num)).1
  · exact (safe_float_bounds _ 0.3 0.0 1.0 (by norm_num) (by norm_num) (by norm_num)).2
  · exact validate_behavior_mem _

theorem processAI_pattern_ok (e t : String) : PatternOK (processAIResponse e t).pattern := by
  unfold processAIResponse
  cases hp : aiParsed t with
  | none => exact simple_pattern_ok e
  | some v =>
    cases v with
    | obj fs => exact ai_validate_pattern_ok e fs
    | null => exact simple_pattern_ok e
    | bool b => exact simple_pattern_ok e
    | num q => exact simple_pattern_ok e
    | str s2 => exact simple_pattern_ok e
    | arr xs => exact simple_pattern_ok e

theorem resolve_pattern_ok (svc : AIService) (e : String) :
    PatternOK (resolve_pattern_data svc e).pattern := by
  cases svc with
  | noModel => exact simple_pattern_ok e
  | withModel outcome =>
    cases outcome with
    | failure => exact simple_pattern_ok e
    | reply t => exact processAI_pattern_ok e t

/-! ### Claim theorems -/

/-- C1: for every emotion text that is non-empty after trimming and every
possible external-AI configuration and response (none, a failed call, or
any reply text), the pattern returned by the resolution entry point has
`speed ∈ [0.2, 2.0]`, `cohesion ∈ [0.0, 0.3]`, `separation ∈ [10, 60]`,
`curve ∈ [0.0, 1.0]` and `behavior` in the enumeration, whichever path
produced it. -/
theorem resolution_pattern_in_range (svc : AIService) (e : String)
    (h : pyStrip e ≠ "") : ResponseOK (generate_emotion_pattern svc (some e)) := by
  simp only [generate_emotion_pattern, Option.getD]
  rw [if_neg h]
  exact resolve_pattern_ok svc (pyStrip e)

theorem resolution_pattern_in_range_witness :
    ResponseOK (generate_emotion_pattern (.withModel (.reply ")(garbage")) (some "joy")) :=
  resolution_pattern_in_range (.withModel (.reply ")(garbage")) "joy" (by decide)

/-- C2 (code bug): when the model is configured and the external call
fails, the rule-based fallback produces the pattern, yet the response
flag `ai_used` is `true` — the code computes it as `model is not None`
(line 89), not as the path actually used. -/
theorem ai_used_misreports_fallback :
    generate_emotion_pattern (.withModel .failure) (some "joy") =
      .ok "joy" (analyze_emotion_simple "joy").pattern
        (analyze_emotion_simple "joy").interpretation true := by
  rfl

/-- C3: for numeric input and bounds `min_val ≤ max_val` with the default
inside the bounds, `safe_float` returns the clamp of the parsed value,
which lies in `[min_val, max_val]`; for non-numeric or missing input it
returns the default.  Totality of the definition models that it never
raises. -/
theorem safe_float_correct (v : JVal) (d mn mx : ℚ) (h1 : mn ≤ mx)
    (h2 : mn ≤ d) (h3 : d ≤ mx) :
    (mn ≤ safe_float v d mn mx ∧ safe_float v d mn mx ≤ mx) ∧
    (∀ q, pyFloat v = some q → safe_float v d mn mx = max mn (min mx q)) ∧
    (pyFloat v = none → safe_float v d mn mx = d) := by
  refine ⟨safe_float_bounds v d mn mx h1 h2 h3, ?_, ?_⟩
  · intro q hq
    unfold safe_float
    rw [hq]
  · intro hq
    unfold safe_float
    rw [hq]

theorem safe_float_correct_witness :
    ((0.2 : ℚ) ≤ safe_float (.num 5) 1 0.2 2 ∧ safe_float (.num 5) 1 0.2 2 ≤ 2) ∧
    safe_float .null 1 0.2 2 = 1 :=
  ⟨(safe_float_correct (.num 5) 1 0.2 2 (by norm_num) (by norm_num) (by norm_num)).1,
   (safe_float_correct .null 1 0.2 2 (by norm_num) (by norm_num) (by norm_num)).2.2 rfl⟩

/-- C5: an emotion text that is empty after stripping whitespace is
rejected with the 400 client error before any pattern is produced,
whatever the AI configuration. -/
theorem empty_input_rejected (svc : AIService) (e : String) (h : pyStrip e = "") :
    generate_emotion_pattern svc (some e) = .badRequest "Please provide emotion text" := by
  simp only [generate_emotion_pattern, Option.getD]
  rw [if_pos h]

theorem empty_input_rejected_witness :
    generate_emotion_pattern .noModel (some "   ") = .badRequest "Please provide emotion text" :=
  empty_input_rejected .noModel "   " (by decide)

/-- C4: classification is first-match-wins in source order: any text whose
lowercased form contains an anger keyword and a joy keyword but no
high-energy keyword gets the anger pattern and interpretation, not joy. -/
theorem classifier_anger_precedes_joy (s : String)
    (hhe : containsAny (lowerStr s) highEnergyWords = false)
    (hang : containsAny (lowerStr s) angerWords = true)
    (hjoy : containsAny (lowerStr s) joyWords = true) :
    analyze_emotion_simple s =
      { pattern := { defaultPattern with speed := 1.5, separation := 45, behavior := "predator" },
        interpretation := .str "Aggressive, confrontational movement" } := by
  simp only [analyze_emotion_simple, hhe, hang]
  rfl

theorem classifier_anger_precedes_joy_witness :
    analyze_emotion_simple "angry and happy" =
      { pattern := { defaultPattern with speed := 1.5, separation := 45, behavior := "predator" },
        interpretation := .str "Aggressive, confrontational movement" } :=
  classifier_anger_precedes_joy "angry and happy" (by decide) (by decide) (by decide)

/-- C6: when the AI reply cannot be reduced to a JSON pattern (no valid
brace-delimited slice, or the slice fails to parse), the entry point
still answers with the rule-based fallback result — no error reaches the
caller, and the pattern is within all declared ranges. -/
theorem malformed_ai_still_answers (e t : String) (he : pyStrip e ≠ "")
    (hm : aiParsed t = none) :
    generate_emotion_pattern (.withModel (.reply t)) (some e) =
      .ok (pyStrip e) (analyze_emotion_simple (pyStrip e)).pattern
        (analyze_emotion_simple (pyStrip e)).interpretation true ∧
    PatternOK (analyze_emotion_simple (pyStrip e)).pattern := by
  have hres : resolve_pattern_data (.withModel (.reply t)) (pyStrip e) =
      analyze_emotion_simple (pyStrip e) := by
    show processAIResponse (pyStrip e) t = analyze_emotion_simple (pyStrip e)
    unfold processAIResponse
    rw [hm]
  constructor
  · simp only [generate_emotion_pattern, Option.getD]
    rw [if_neg he, hres]
  · exact simple_pattern_ok (pyStrip e)

theorem malformed_ai_still_answers_witness :
    generate_emotion_pattern (.withModel (.reply "total garbage")) (some "joy") =
      .ok (pyStrip "joy") (analyze_emotion_simple (pyStrip "joy")).pattern
        (analyze_emotion_simple (pyStrip "joy")).interpretation true ∧
    PatternOK (analyze_emotion_simple (pyStrip "joy")).pattern :=
  malformed_ai_still_answers "joy" "total garbage" (by decide) rfl

/-- C7 (counterexample): the AI generator does NOT raise a malformed-
response error to its caller when the reply has no JSON: the `except` at
line 168 recovers internally, returning the rule-based result as a
success.  The claim that it fails to its caller is false at this input. -/
theorem ai_generator_recovers_on_garbage :
    analyze_emotion_with_ai "joy" (.reply "garbage") = .ok (analyze_emotion_simple "joy") := by
  rfl

/-- C7 (amended): whenever the reply cannot be reduced to parsed JSON,
the AI generator recovers internally, returning the rule-based
classifier result for the same emotion text as a success instead of
raising to its caller; only the external service call itself can fail. -/
theorem ai_generator_internal_fallback (e t : String) (hm : aiParsed t = none) :
    analyze_emotion_with_ai e (.reply t) = .ok (analyze_emotion_simple e) := by
  show Except.ok (processAIResponse e t) = _
  unfold processAIResponse
  rw [hm]

theorem ai_generator_internal_fallback_witness :
    analyze_emotion_with_ai "calm" (.reply "no braces here") =
      .ok (analyze_emotion_simple "calm") :=
  ai_generator_internal_fallback "calm" "no braces here" rfl

/-- C8: resolving "furious and enraged" with no external service
configured yields the anger pattern: behavior predator, speed 1.5,
separation 45 (cohesion and curve keep their defaults). -/
theorem furious_enraged_resolution :
    responsePattern (generate_emotion_pattern .noModel (some "furious and enraged")) =
      some { speed := 1.5, cohesion := 0.12, separation := 45, curve := 0.3,
             behavior := "predator" } := by
  rfl

/-! ### Interpretation non-emptiness (claim C9) -/

theorem data_append_eq (s t : String) : (s ++ t).data = s.data ++ t.data := by
  cases s
  cases t
  rfl

/-- A string wrapped between a non-empty prefix and a suffix is non-empty. -/
theorem wrap_ne_empty (a s c : String) (h : a.data ≠ []) : a ++ s ++ c ≠ "" := by
  intro heq
  apply h
  have h2 : (a ++ s ++ c).data = ("" : String).data := congrArg String.data heq
  rw [data_append_eq, data_append_eq] at h2
  exact (List.append_eq_nil.mp (List.append_eq_nil.mp h2).1).1

/-- Every branch of the rule-based classifier yields a non-empty
interpretation string. -/
theorem simple_interp_nonempty (s : String) :
    InterpStrNE (analyze_emotion_simple s).interpretation := by
  simp only [analyze_emotion_simple]
  repeat' split
  all_goals first
    | decide
    | exact wrap_ne_empty "Simple pattern for '" s "'" (by decide)

theorem interpOK_of_ok (em : String) (p : Pattern) (i : JVal) (b : Bool)
    (h : InterpStrNE i) : InterpOK (.ok em p i b) := by
  cases i with
  | str s => exact h
  | null => exact h.elim
  | bool x => exact h.elim
  | num x => exact h.elim
  | arr x => exact h.elim
  | obj x => exact h.elim

/-- Does this AI configuration supply its own `interpretation` value for
the request (a parsed JSON object containing that key)? -/
def suppliesInterp : AIService → Bool
  | .withModel (.reply t) =>
    match aiParsed t with
    | some (.obj fs) => (dictGet fs "interpretation").isSome
    | _ => false
  | _ => false

theorem resolve_interp_nonempty (svc : AIService) (e : String)
    (h1 : suppliesInterp svc = false) :
    InterpStrNE (resolve_pattern_data svc e).interpretation := by
  cases svc with
  | noModel => exact simple_interp_nonempty e
  | withModel outcome =>
    cases outcome with
    | failure => exact simple_interp_nonempty e
    | reply t =>
      show InterpStrNE (processAIResponse e t).interpretation
      unfold processAIResponse
      cases hp : aiParsed t with
      | none => exact simple_interp_nonempty e
      | some v =>
        cases v with
        | obj fs =>
          cases hd : dictGet fs "interpretation" with
          | some j =>
            exfalso
            have : suppliesInterp (.withModel (.reply t)) = true := by
              simp [suppliesInterp, hp, hd]
            rw [h1] at this
            exact Bool.false_ne_true this
          | none =>
            have hi : (ai_validate e fs).interpretation =
                .str ("AI interpretation of \"" ++ e ++ "\"") := by
              simp [ai_validate, hd]
            rw [hi]
            exact wrap_ne_empty "AI interpretation of \"" e "\"" (by decide)
        | null => exact simple_interp_nonempty e
        | bool b => exact simple_interp_nonempty e
        | num q => exact simple_interp_nonempty e
        | str s2 => exact simple_interp_nonempty e
        | arr xs => exact simple_interp_nonempty e

/-- C9 (counterexample): the AI path passes the AI-supplied
`interpretation` value through unvalidated, so an AI reply carrying an
empty interpretation string reaches the caller as an empty
interpretation — the claim that it is always non-empty is false here. -/
theorem ai_supplied_empty_interpretation :
    responseInterp
        (generate_emotion_pattern
          (.withModel (.reply "\x7b\"interpretation\": \"\"\x7d")) (some "joy")) =
      some (.str "") := by
  rfl

/-- C9 (amended): the interpretation in a resolved result is a non-empty
string on the fallback path and on the AI path whenever the parsed AI
JSON does not supply its own `interpretation` value; a supplied value is
passed through unvalidated and may be empty. -/
theorem interpretation_nonempty_unless_ai_supplied (svc : AIService) (e : String)
    (h1 : suppliesInterp svc = false) (h2 : pyStrip e ≠ "") :
    InterpOK (generate_emotion_pattern svc (some e)) := by
  simp only [generate_emotion_pattern, Option.getD]
  rw [if_neg h2]
  exact interpOK_of_ok _ _ _ _ (resolve_interp_nonempty svc (pyStrip e) h1)

theorem interpretation_nonempty_unless_ai_supplied_witness :
    InterpOK (generate_emotion_pattern .noModel (some "curious")) :=
  interpretation_nonempty_unless_ai_supplied .noModel "curious" rfl (by decide)

/-- C10: each classifier category only overrides the fields it assigns
and leaves every other field at the default value (speed 0.8, cohesion
0.12, separation 25, curve 0.3, behavior standard).  One conjunct per
category, guarded by that category being the first match: in particular
an anger text (no high-energy keyword) keeps cohesion 0.12 and curve
0.3. -/
theorem classifier_frame_conditions (s : String) :
    (containsAny (lowerStr s) highEnergyWords = true →
      (analyze_emotion_simple s).pattern.cohesion = 0.12 ∧
      (analyze_emotion_simple s).pattern.separation = 25) ∧
    (containsAny (lowerStr s) highEnergyWords = false →
     containsAny (lowerStr s) angerWords = true →
      (analyze_emotion_simple s).pattern.cohesion = 0.12 ∧
      (analyze_emotion_simple s).pattern.curve = 0.3) ∧
    (containsAny (lowerStr s) highEnergyWords = false →
     containsAny (lowerStr s) angerWords = false →
     containsAny (lowerStr s) sadnessWords = true →
      (analyze_emotion_simple s).pattern.separation = 25 ∧
      (analyze_emotion_simple s).pattern.behavior = "standard") ∧
    (containsAny (lowerStr s) highEnergyWords = false →
     containsAny (lowerStr s) angerWords = false →
     containsAny (lowerStr s) sadnessWords = false →
     containsAny (lowerStr s) anxietyWords = true →
      (analyze_emotion_simple s).pattern.cohesion = 0.12) ∧
    (containsAny (lowerStr s) highEnergyWords = false →
     containsAny (lowerStr s) angerWords = false →
     containsAny (lowerStr s) sadnessWords = false →
     containsAny (lowerStr s) anxietyWords = false →
     containsAny (lowerStr s) loveWords = true →
      (analyze_emotion_simple s).pattern.curve = 0.3) ∧
    (containsAny (lowerStr s) highEnergyWords = false →
     containsAny (lowerStr s) angerWords = false →
     containsAny (lowerStr s) sadnessWords = false →
     containsAny (lowerStr s) anxietyWords = false →
     containsAny (lowerStr s) loveWords = false →
     containsAny (lowerStr s) joyWords = true →
      (analyze_emotion_simple s).pattern.separation = 25) ∧
    (containsAny (lowerStr s) highEnergyWords = false →
     containsAny (lowerStr s) angerWords = false →
     containsAny (lowerStr s) sadnessWords = false →
     containsAny (lowerStr s) anxietyWords = false →
     containsAny (lowerStr s) loveWords = false →
     containsAny (lowerStr s) joyWords = false →
     containsAny (lowerStr s) calmWords = true →
      (analyze_emotion_simple s).pattern.separation = 25 ∧
      (analyze_emotion_simple s).pattern.behavior = "standard") ∧
    (containsAny (lowerStr s) highEnergyWords = false →
     containsAny (lowerStr s) angerWords = false →
     containsAny (lowerStr s) sadnessWords = false →
     containsAny (lowerStr s) anxietyWords = false →
     containsAny (lowerStr s) loveWords = false →
     containsAny (lowerStr s) joyWords = false →
     containsAny (lowerStr s) calmWords = false →
     containsAny (lowerStr s) confusionWords = true →
      (analyze_emotion_simple s).pattern.cohesion = 0.12) := by
  refine ⟨?_, ?_, ?_, ?_, ?_, ?_, ?_, ?_⟩ <;>
    · intros
      simp_all [analyze_emotion_simple, defaultPattern]

theorem classifier_frame_conditions_witness :
    (analyze_emotion_simple "wild").pattern.cohesion = 0.12 ∧
    (analyze_emotion_simple "wild").pattern.separation = 25 :=
  (classifier_frame_conditions "wild").1 (by decide)

end EmotionApp
